import Mathlib

/-!
Verification development for a small CRUD API backend (single file,
src/main.py, FastAPI over a managed database backend).  The handlers are
shallowly embedded: the database is a record of tables (lists of rows),
each HTTP handler is a pure Lean function from a request body and a
database to a response together with the new database.  HTTP outcomes are
modelled with `Except Http`.

The managed backend (the supabase client) is an external collaborator
that is not part of the repository; it is modelled from the contract the
specification gives for the Data Access Facade: `single` fails with
NotFound when zero rows match and with Ambiguous when more than one
matches, `update`/`delete` return the affected rows (an empty list when
nothing matched, without an error), `insert` returns the inserted rows.
JSON-string columns are modelled symbolically: `StoredText.ser v` stands
for the text produced by serializing the value `v` (Python `json.dumps`),
`StoredText.raw s` for any other text; deserializing (`json.loads`)
inverts `ser` and fails on `raw` text.
-/

/-- An HTTP error as raised by the handlers (FastAPI `HTTPException`):
a status code and a detail message. -/
structure Http where
  status : Nat
  detail : String
  deriving DecidableEq, Repr

/-- A handler outcome: a JSON-able value or an HTTP error response. -/
abbrev Res (α : Type) := Except Http α

/-- Failures of the Data Access Facade's `single` read, per the
specification: NotFound on zero matching rows, Ambiguous on more than
one. -/
inductive DbErr where
  | notFound
  | ambiguous
  deriving DecidableEq, Repr

/-- A Python value as it appears after `json.loads` / before
`json.dumps`: None, bool, int, str, list, dict. -/
inductive PyVal where
  | vnone
  | vbool (b : Bool)
  | vint (n : Int)
  | vstr (s : String)
  | vlist (xs : List PyVal)
  | vdict (kvs : List (String × PyVal))

/-- Text held in a database column that the code round-trips through
`json.dumps` / `json.loads`.  `ser v` is the serialization of the value
`v`; `raw s` is any other text (it does not parse as JSON in this
model). -/
inductive StoredText where
  | ser (v : PyVal)
  | raw (s : String)

/-- Python `json.loads` on stored text: inverts `ser`, fails on raw
text. -/
def loads : StoredText → Option PyVal
  | .ser v => some v
  | .raw _ => none

/-- Python truthiness of the stored text (`json.dumps` never produces
the empty string, so serialized text is always truthy). -/
def storedTruthy : StoredText → Bool
  | .ser _ => true
  | .raw s => !(s == "")

/-- The Data Access Facade's `single` read on the rows matching a
filter, modelled from the spec: exactly one row or a failure. -/
def single {α : Type} : List α → Except DbErr α
  | [r] => .ok r
  | [] => .error .notFound
  | _ :: _ :: _ => .error .ambiguous

/-- Rows of the `contents` table: a key and the JSON-text value
column. -/
structure ContentRow where
  key : String
  value : StoredText

/-- Rows of the `contact_info` table. -/
structure ContactRow where
  id : Int
  email : Option String
  phone : Option String
  address : Option String
  business_hours : Option String
  social_links : Option PyVal

/-- Rows of the `services` table. -/
structure ServiceRow where
  id : String
  title : String
  description : String
  icon : String
  price : Option String
  features : List String
  cover_image_url : Option String

/-- Rows of the `team_members` table.  `specialties` is a JSON-text
column; `display_order` is nullable. -/
structure TeamRow where
  id : Nat
  name : String
  designation : String
  image_url : String
  bio : Option String
  specialties : Option StoredText
  display_order : Option Int

/-- Rows of the `home_content` table (the pydantic `HomePageContent`
fields; the table's own id column is never referenced by the code). -/
structure HomeContentRow where
  hero_title : Option String
  hero_subtitle : Option String
  hero_description : Option String
  cta_title : Option String
  cta_subtitle : Option String

/-- Rows of the `hero_images` table (`HeroImageOut`). -/
structure HeroRow where
  id : Int
  image_url : Option String
  display_order : Int
  deriving DecidableEq, Repr

/-- Rows of the `home_stats` table (`HomeStatOut`; its id is an optional
string in the pydantic model). -/
structure StatRow where
  id : Option String
  number : String
  label : String
  icon_name : Option String
  display_order : Int
  deriving DecidableEq, Repr

/-- Rows of the `home_services_preview` table
(`HomeServicePreviewOut`). -/
structure PreviewRow where
  id : Int
  title : String
  description : Option String
  image_url : Option String
  display_order : Int
  deriving DecidableEq, Repr

/-- An order, as supplied by the client and as stored in the `orders`
table (`order_id` is the client-supplied key; `created_at` is the
isoformat timestamp string). -/
structure OrderBody where
  order_id : String
  name : String
  email : String
  phone : Option String
  company : Option String
  message : Option String
  budget : Option String
  timeline : Option String
  package_name : String
  package_price : String
  status : String
  created_at : String
  deriving DecidableEq, Repr

/-- Rows of the `reviews` table. -/
structure ReviewRow where
  id : Nat
  name : String
  rating : Int
  review : String
  approved : Bool
  created_at : Int
  deriving DecidableEq, Repr

/-- The state of the managed backend: one list of rows per table the
claims touch, plus the id counter the backend uses for
backend-assigned team-member ids. -/
structure DB where
  contents : List ContentRow
  contact_info : List ContactRow
  services : List ServiceRow
  team_members : List TeamRow
  nextTeamId : Nat
  home_content : List HomeContentRow
  hero_images : List HeroRow
  home_stats : List StatRow
  home_services_preview : List PreviewRow
  orders : List OrderBody
  reviews : List ReviewRow

/-- The empty backend state. -/
def emptyDb : DB :=
  { contents := [], contact_info := [], services := [], team_members := []
    nextTeamId := 1, home_content := [], hero_images := [], home_stats := []
    home_services_preview := [], orders := [], reviews := [] }

/-- Whether a handler outcome is a success. -/
def resOk {α : Type} : Res α → Bool
  | .ok _ => true
  | .error _ => false

/-! ## Content management (`GET /content/{key}`, `PUT /content/{key}`)

`get_content` (src/main.py:304-324): a `single` read of the `contents`
row with the given key; when the stored text is truthy it is parsed, a
`featuredServices` list is forced into the parsed value, and the row is
returned.  A `json.JSONDecodeError` on parsing yields the default value;
any other exception (including the NotFound failure of `single` and the
`TypeError` the injection raises on a non-dict parse result) is caught
by the handler's `except Exception` and converted to a 500.  The
`return` of the default body for falsy `response.data` (line 321) is
unreachable: `single` either fails or returns a non-empty row dict. -/

/-- The default content value `{"featuredServices": []}`. -/
def defaultContentValue : PyVal := .vdict [("featuredServices", .vlist [])]

/-- Key lookup in a parsed JSON object (Python `d[k]` / `k in d`). -/
def lookupKey (kvs : List (String × PyVal)) (k : String) : Option PyVal :=
  (kvs.find? (fun p => p.fst == k)).map (fun p => p.snd)

/-- Key assignment in a parsed JSON object (Python `d[k] = v`): replace
in place when present, append otherwise. -/
def setKey (kvs : List (String × PyVal)) (k : String) (v : PyVal) :
    List (String × PyVal) :=
  if (kvs.find? (fun p => p.fst == k)).isSome then
    kvs.map (fun p => if p.fst == k then (k, v) else p)
  else kvs ++ [(k, v)]

/-- Lines 313-314 of `get_content`: force `parsed_value["featuredServices"]`
to be a list.  On a dict this inserts or repairs the key.  On any other
parse result Python raises `TypeError`: on a str, list, or other
iterable the membership test succeeds or fails but the subsequent
indexing/assignment with a string key raises; on an int or None the
membership test itself raises.  The error propagates past the inner
`except json.JSONDecodeError` to the handler's `except Exception`. -/
def injectFeatured : PyVal → Except Unit PyVal
  | .vdict kvs =>
    match lookupKey kvs "featuredServices" with
    | some (.vlist _) => .ok (.vdict kvs)
    | _ => .ok (.vdict (setKey kvs "featuredServices" (.vlist [])))
  | _ => .error ()

/-- `GET /content/{key}` (src/main.py:304-324).  Returns the row's key
together with its parsed value. -/
def get_content (key : String) (db : DB) : Res (String × PyVal) :=
  match single (db.contents.filter (fun r => r.key == key)) with
  | .error _ => .error ⟨500, "Failed to retrieve content: no rows returned"⟩
  | .ok row =>
    if storedTruthy row.value then
      match loads row.value with
      | some parsed =>
        match injectFeatured parsed with
        | .ok v => .ok (row.key, v)
        | .error _ => .error ⟨500, "Failed to retrieve content: TypeError"⟩
      | none => .ok (row.key, defaultContentValue)
    else .ok (row.key, defaultContentValue)

/-- The `Content` request body (pydantic: both fields are required
strings; a JSON-object `value` is rejected with 422 before the handler
runs, so only string values reach `update_content`). -/
structure ContentBody where
  key : String
  value : String

/-- `PUT /content/{key}` (src/main.py:326-339).  The body's `value` (a
Python str) is passed through `json.dumps` — serializing the *string*,
so a value that is itself serialized JSON is double-encoded — then the
row with the path key is updated; when the update matches no rows the
payload is inserted instead.  Returns the affected rows. -/
def update_content (key : String) (body : ContentBody) (db : DB) :
    Res (List ContentRow) × DB :=
  let newRow : ContentRow := { key := body.key, value := .ser (.vstr body.value) }
  let updated := (db.contents.filter (fun r => r.key == key)).map (fun _ => newRow)
  if updated.isEmpty then
    (.ok [newRow], { db with contents := db.contents ++ [newRow] })
  else
    (.ok updated,
     { db with contents := db.contents.map (fun r => if r.key == key then newRow else r) })

/-! ## Contact info (`PUT /contact-info`) -/

/-- The `ContactInfo` request body: every field optional.  A field that
is `none` is treated as unset and excluded by `dict(exclude_unset=True)`
(the model conflates explicit null with absent, which only narrows the
inputs, not the handler logic).  The handler's `socialLinks` re-encoding
branch (src/main.py:366-367) never fires because the pydantic field is
named `social_links`, so the value passes through unchanged. -/
structure ContactBody where
  id : Option Int
  email : Option String
  phone : Option String
  address : Option String
  business_hours : Option String
  social_links : Option PyVal

/-- Apply the PUT patch to an existing `contact_info` row (only the
provided fields are written). -/
def applyContactPatch (info : ContactBody) (r : ContactRow) : ContactRow :=
  { id := info.id.getD r.id
    email := if info.email.isSome then info.email else r.email
    phone := if info.phone.isSome then info.phone else r.phone
    address := if info.address.isSome then info.address else r.address
    business_hours := if info.business_hours.isSome then info.business_hours else r.business_hours
    social_links := if info.social_links.isSome then info.social_links else r.social_links }

/-- The row inserted on a missed update: `{"id": 1, **info_dict}` — the
id defaults to 1 but a body-supplied id overrides it (later keys win in
a Python dict literal). -/
def contactInsertRow (info : ContactBody) : ContactRow :=
  { id := info.id.getD 1
    email := info.email
    phone := info.phone
    address := info.address
    business_hours := info.business_hours
    social_links := info.social_links }

/-- `PUT /contact-info` (src/main.py:362-375).  Update the row with
id 1; when no row matched, insert `{"id": 1, **info_dict}` instead.
Returns the affected rows. -/
def update_contact_info (info : ContactBody) (db : DB) :
    Res (List ContactRow) × DB :=
  let updated := (db.contact_info.filter (fun r => r.id == 1)).map (applyContactPatch info)
  if updated.isEmpty then
    let row := contactInsertRow info
    (.ok [row], { db with contact_info := db.contact_info ++ [row] })
  else
    (.ok updated,
     { db with contact_info :=
        db.contact_info.map (fun r => if r.id == 1 then applyContactPatch info r else r) })

/-! ## Services (`PUT /services/{service_id}`)

The `coverImage` renaming branch (src/main.py:487-488) is dead code: the
pydantic `Service` model has no `coverImage` field.  All `Service`
fields are required or defaulted, so the patch overwrites every
column. -/

/-- The `Service` request body. -/
structure ServiceBody where
  title : String
  description : String
  icon : String
  price : Option String
  features : List String
  cover_image_url : Option String

/-- Overwrite a `services` row with the PUT body. -/
def applyServicePatch (b : ServiceBody) (r : ServiceRow) : ServiceRow :=
  { r with title := b.title, description := b.description, icon := b.icon
           price := b.price, features := b.features
           cover_image_url := b.cover_image_url }

/-- `PUT /services/{service_id}` (src/main.py:483-495).  When the update
matches no rows the handler raises `HTTPException(404, ...)` — but the
raise happens inside the handler's own `try`, whose `except Exception`
catches it (FastAPI's `HTTPException` subclasses `Exception`) and
re-raises status 500 with `str(e)` as the detail.  The request therefore
answers 500, never 404. -/
def update_service (sid : String) (b : ServiceBody) (db : DB) :
    Res ServiceRow × DB :=
  let updated := (db.services.filter (fun r => r.id == sid)).map (applyServicePatch b)
  let newTable := db.services.map (fun r => if r.id == sid then applyServicePatch b r else r)
  match updated with
  | [] => (.error ⟨500, "404: Service with id " ++ sid ++ " not found."⟩,
           { db with services := newTable })
  | r :: _ => (.ok r, { db with services := newTable })

/-! ## Team members (`POST /team-members`, `POST /team-members/reorder`) -/

/-- The `TeamMember` request body. -/
structure TeamBody where
  name : String
  designation : String
  image_url : String
  bio : Option String
  specialties : Option (List String)
  social_url_a : Option String
  social_url_b : Option String
  social_url_c : Option String
  display_order : Option Int

/-- The backend's ordering for `order('display_order', desc=True)`:
descending with NULLs first (the Postgres default for a descending
order, passed through by the backend). -/
def ordDesc (a b : Option Int) : Bool :=
  match a, b with
  | none, _ => true
  | some _, none => false
  | some x, some y => decide (y ≤ x)

/-- Insertion step of the descending sort. -/
def insertByOrdDesc (r : TeamRow) : List TeamRow → List TeamRow
  | [] => [r]
  | x :: xs =>
    if ordDesc r.display_order x.display_order then r :: x :: xs
    else x :: insertByOrdDesc r xs

/-- The `team_members` rows sorted by `display_order` descending, NULLs
first. -/
def sortByOrdDesc (rows : List TeamRow) : List TeamRow :=
  rows.foldr insertByOrdDesc []

/-- Python `json.dumps` of a list of strings (the `specialties`
column). -/
def dumpsStrList (xs : List String) : StoredText :=
  .ser (.vlist (xs.map PyVal.vstr))

/-- The row inserted by `create_team_member`: backend-assigned id, the
body's fields, `display_order` forced to the computed value,
`specialties` serialized when it is a list. -/
def teamInsertRow (nid : Nat) (b : TeamBody) (ord : Int) : TeamRow :=
  { id := nid, name := b.name, designation := b.designation
    image_url := b.image_url, bio := b.bio
    specialties := b.specialties.map dumpsStrList
    display_order := some ord }

/-- `POST /team-members` (src/main.py:526-544).  Reads the top row of
the table ordered by `display_order` descending (limit 1); `max_order`
is 0 when the table is empty, otherwise that row's `display_order`
value — if that value is NULL, Python's `None + 1` raises `TypeError`,
which the handler's `except` turns into a 400.  Otherwise the body is
inserted with `display_order = max_order + 1`. -/
def create_team_member (b : TeamBody) (db : DB) : Res (List TeamRow) × DB :=
  let maxOrder : Except Unit Int :=
    match sortByOrdDesc db.team_members with
    | [] => .ok 0
    | top :: _ =>
      match top.display_order with
      | none => .error ()
      | some m => .ok m
  match maxOrder with
  | .error _ => (.error ⟨400, "TypeError: unsupported operand types"⟩, db)
  | .ok m =>
    let row := teamInsertRow db.nextTeamId b (m + 1)
    (.ok [row],
     { db with team_members := db.team_members ++ [row]
               nextTeamId := db.nextTeamId + 1 })

/-- One iteration of the reorder loop: set `display_order = idx` on
every row whose id equals `mid`. -/
def setOrder (mid : Nat) (idx : Nat) (rows : List TeamRow) : List TeamRow :=
  rows.map (fun r =>
    if r.id == mid then { r with display_order := some (Int.ofNat idx) } else r)

/-- The loop of `reorder_team_members`
(`for index, member_id in enumerate(order.ordered_ids)`): one update per
listed id, setting its `display_order` to its position, counting from
`i`. -/
def reorderLoop (i : Nat) (ids : List Nat) (rows : List TeamRow) : List TeamRow :=
  match ids with
  | [] => rows
  | mid :: rest => reorderLoop (i + 1) rest (setOrder mid i rows)

/-- `POST /team-members/reorder` (src/main.py:575-584). -/
def reorder_team_members (ids : List Nat) (db : DB) : Res String × DB :=
  (.ok "Team members reordered successfully",
   { db with team_members := reorderLoop 0 ids db.team_members })

/-! ## Home page aggregate (`GET /home-page`, `PUT /home-page`) -/

/-- The `FullHomePage` request body: the singleton content plus the
three child collections.  The PUT deserializes the `*Out` models, so
each child element carries its id. -/
structure FullHomePageBody where
  content : HomeContentRow
  hero_images : List HeroRow
  stats : List StatRow
  services_preview : List PreviewRow

/-- `delete().neq('id', -1)` on `hero_images`: removes every row whose
id differs from -1 (all rows in practice; a literal id of -1 would
survive). -/
def deleteHeroRows (rows : List HeroRow) : List HeroRow :=
  rows.filter (fun r => r.id == -1)

/-- `delete().neq('id', -1)` on `home_services_preview`. -/
def deletePreviewRows (rows : List PreviewRow) : List PreviewRow :=
  rows.filter (fun r => r.id == -1)

/-- `delete().neq('id', -1)` on `home_stats`: with SQL three-valued
logic a NULL id never satisfies `id <> -1`, so NULL-id rows also
survive the delete. -/
def deleteStatRows (rows : List StatRow) : List StatRow :=
  rows.filter (fun r =>
    match r.id with
    | none => true
    | some s => s == "-1")

/-- `PUT /home-page` (src/main.py:438-459).  In sequence: insert the
content payload (the upsert has no id column to conflict on, so it
inserts a row); delete all hero images and bulk-insert the payload's
list when it is non-empty; likewise for stats and service previews.
No rollback ties the four writes together. -/
def update_full_home_page (body : FullHomePageBody) (db : DB) : Res String × DB :=
  let db1 := { db with home_content := db.home_content ++ [body.content] }
  let keptHero := deleteHeroRows db1.hero_images
  let db2 := { db1 with hero_images :=
    if body.hero_images.isEmpty then keptHero else keptHero ++ body.hero_images }
  let keptStats := deleteStatRows db2.home_stats
  let db3 := { db2 with home_stats :=
    if body.stats.isEmpty then keptStats else keptStats ++ body.stats }
  let keptPrev := deletePreviewRows db3.home_services_preview
  let db4 := { db3 with home_services_preview :=
    if body.services_preview.isEmpty then keptPrev else keptPrev ++ body.services_preview }
  (.ok "Home page updated successfully", db4)

/-- `GET /home-page` (src/main.py:418-436).  The handler body begins
with `await asyncio.gather(...)`, but the module never imports
`asyncio`: looking up the name raises `NameError` before any read is
issued, the handler's `except Exception` catches it, and every request
answers 500.  No database read takes place. -/
def get_full_home_page (_db : DB) : Res FullHomePageBody :=
  .error ⟨500, "Internal Server Error: NameError: name asyncio is not defined"⟩

/-! ## Orders (`POST /orders`) and the order notification email -/

/-- The email configuration drawn from the environment at startup. -/
structure EmailEnv where
  sender_email : Option String
  sender_email_password : Option String
  receiver_email : Option String

/-- Python truthiness of an optional environment string (`all([...])`
treats a missing variable and an empty string alike as falsy). -/
def pyTruthy : Option String → Bool
  | none => false
  | some s => !(s == "")

/-- What became of a fire-and-forget notification email. -/
inductive EmailOutcome where
  | skipped
  | sent
  | failedLogged
  deriving DecidableEq, Repr

/-- `_send_email_notification` (src/main.py:699-737).  When any of the
three configuration values is falsy it logs a warning and returns;
otherwise it attempts the SMTP send, and a failure is caught by its own
`try`/`except` and only logged.  The function never raises. -/
def send_email_notification (env : EmailEnv) (smtpOk : Bool) : EmailOutcome :=
  if pyTruthy env.sender_email && pyTruthy env.sender_email_password
     && pyTruthy env.receiver_email then
    (if smtpOk then .sent else .failedLogged)
  else .skipped

/-- `POST /orders` (src/main.py:739-750).  Insert the order; since the
insert returned rows, call the notification sender on the inserted row;
return the inserted rows.  `smtpOk` stands for whether the SMTP relay
accepts the send. -/
def create_order (env : EmailEnv) (smtpOk : Bool) (b : OrderBody) (db : DB) :
    Res (List OrderBody) × EmailOutcome × DB :=
  let db2 := { db with orders := db.orders ++ [b] }
  let outcome := send_email_notification env smtpOk
  (.ok [b], outcome, db2)

/-! ## Reviews (`GET /reviews`, `GET /admin/reviews`) -/

/-- `GET /admin/reviews` (src/main.py:862-869): every review, ordered by
`created_at` descending. -/
def get_all_reviews (db : DB) : List ReviewRow :=
  List.insertionSort (fun a b => b.created_at ≤ a.created_at) db.reviews

/-- `GET /reviews` (src/main.py:871-878): only the reviews with
`approved = true`, ordered by `created_at` descending. -/
def get_public_reviews (db : DB) : List ReviewRow :=
  List.insertionSort (fun a b => b.created_at ≤ a.created_at)
    (db.reviews.filter (fun r => r.approved))

/-! ## The route table and the auth guard -/

/-- HTTP methods used by the app. -/
inductive Method where
  | GET
  | POST
  | PUT
  | DELETE
  deriving DecidableEq, Repr

/-- One route of the app: method, path template, and whether the handler
declares the `Depends(get_current_user)` guard. -/
structure Route where
  method : Method
  path : String
  guarded : Bool
  deriving DecidableEq, Repr

/-- Every route of src/main.py, transcribed from the decorators;
`guarded` records the presence of `user: dict = Depends(get_current_user)`
in the handler signature. -/
def routes : List Route :=
  [ ⟨.GET, "/", false⟩
  , ⟨.POST, "/signup", false⟩
  , ⟨.POST, "/login", false⟩
  , ⟨.GET, "/content/\x7bkey\x7d", false⟩
  , ⟨.PUT, "/content/\x7bkey\x7d", true⟩
  , ⟨.GET, "/contact-info", false⟩
  , ⟨.PUT, "/contact-info", true⟩
  , ⟨.GET, "/reviews-stats", false⟩
  , ⟨.POST, "/reviews-stats", true⟩
  , ⟨.PUT, "/reviews-stats/\x7bstat_id\x7d", true⟩
  , ⟨.DELETE, "/reviews-stats/\x7bstat_id\x7d", true⟩
  , ⟨.GET, "/home-page", false⟩
  , ⟨.PUT, "/home-page", true⟩
  , ⟨.GET, "/services", false⟩
  , ⟨.POST, "/services", true⟩
  , ⟨.PUT, "/services/\x7bservice_id\x7d", true⟩
  , ⟨.DELETE, "/services/\x7bservice_id\x7d", true⟩
  , ⟨.GET, "/team-members", false⟩
  , ⟨.POST, "/team-members", true⟩
  , ⟨.PUT, "/team-members/\x7bmember_id\x7d", true⟩
  , ⟨.DELETE, "/team-members/\x7bmember_id\x7d", true⟩
  , ⟨.POST, "/team-members/reorder", true⟩
  , ⟨.GET, "/portfolio-categories", false⟩
  , ⟨.POST, "/portfolio-categories", true⟩
  , ⟨.DELETE, "/portfolio-categories/\x7bcategory_id\x7d", true⟩
  , ⟨.GET, "/portfolio-projects", false⟩
  , ⟨.POST, "/portfolio-projects", true⟩
  , ⟨.PUT, "/portfolio-projects/\x7bproject_id\x7d", true⟩
  , ⟨.DELETE, "/portfolio-projects/\x7bproject_id\x7d", true⟩
  , ⟨.POST, "/orders", false⟩
  , ⟨.GET, "/orders", true⟩
  , ⟨.GET, "/orders/\x7border_id\x7d", true⟩
  , ⟨.PUT, "/orders/\x7border_id\x7d", true⟩
  , ⟨.DELETE, "/orders/\x7border_id\x7d", true⟩
  , ⟨.GET, "/packages", false⟩
  , ⟨.POST, "/packages", true⟩
  , ⟨.PUT, "/packages/\x7bpackage_id\x7d", true⟩
  , ⟨.DELETE, "/packages/\x7bpackage_id\x7d", true⟩
  , ⟨.POST, "/reviews", false⟩
  , ⟨.GET, "/admin/reviews", true⟩
  , ⟨.GET, "/reviews", false⟩
  , ⟨.PUT, "/reviews/\x7breview_id\x7d", true⟩
  , ⟨.PUT, "/reviews/\x7breview_id\x7d/approve", true⟩
  , ⟨.DELETE, "/reviews/\x7breview_id\x7d", true⟩
  , ⟨.GET, "/messages", true⟩
  , ⟨.POST, "/messages", false⟩
  , ⟨.PUT, "/messages/\x7bmessage_id\x7d/read", true⟩
  , ⟨.DELETE, "/messages/\x7bmessage_id\x7d", true⟩
  , ⟨.POST, "/messages/reply", true⟩
  , ⟨.POST, "/send-reply-email", false⟩
  , ⟨.POST, "/images/upload", false⟩
  ]

/-- A mutating route: any method other than GET. -/
def isMutating (r : Route) : Bool :=
  match r.method with
  | .GET => false
  | _ => true

/-- The admin-read endpoints (guarded GETs over private data). -/
def adminReadRoutes : List (Method × String) :=
  [ (.GET, "/orders"), (.GET, "/orders/\x7border_id\x7d")
  , (.GET, "/admin/reviews"), (.GET, "/messages") ]

/-- A route the claim says must require a bearer token: mutating or
admin-read. -/
def requiresAuthPerClaim (r : Route) : Bool :=
  isMutating r || adminReadRoutes.contains (r.method, r.path)

/-- The exception list exactly as the claim states it. -/
def claimExceptions : List (Method × String) :=
  [ (.POST, "/signup"), (.POST, "/login"), (.POST, "/orders")
  , (.POST, "/reviews"), (.POST, "/messages"), (.GET, "/reviews")
  , (.GET, "/home-page"), (.GET, "/content/\x7bkey\x7d")
  , (.GET, "/contact-info"), (.GET, "/services") ]

/-- The claim as stated: every mutating or admin-read route outside the
exception list is guarded. -/
def claimC5Holds : Bool :=
  routes.all (fun r =>
    !(requiresAuthPerClaim r) || claimExceptions.contains (r.method, r.path)
      || r.guarded)

/-- The exception list the code actually implements: the claim's list
plus the two unguarded mutating routes `POST /send-reply-email` and
`POST /images/upload`. -/
def amendedExceptions : List (Method × String) :=
  claimExceptions ++ [(.POST, "/send-reply-email"), (.POST, "/images/upload")]

/-- The amended route property: every mutating or admin-read route
outside the amended exception list is guarded. -/
def amendedC5Holds : Bool :=
  routes.all (fun r =>
    !(requiresAuthPerClaim r) || amendedExceptions.contains (r.method, r.path)
      || r.guarded)

/-- The bearer credentials a request presents. -/
inductive Cred where
  | missing
  | nonBearer
  | bearer (token : String)

/-- FastAPI's `HTTPBearer()` security dependency (src/main.py:70) with
its default `auto_error`: a missing `Authorization` header or a
non-bearer scheme is rejected with 403 before the handler's own
dependency code runs; a bearer token is passed through. -/
def httpBearerCheck : Cred → Except Http String
  | .missing => .error ⟨403, "Not authenticated"⟩
  | .nonBearer => .error ⟨403, "Invalid authentication credentials"⟩
  | .bearer t => .ok t

/-- `get_current_user` (src/main.py:72-81).  `verify` models
`supabase.auth.get_user`: `some user` on a valid token, `none` when the
token is invalid, expired, or the auth backend errors.  Every failure
path answers 401 (the 401 raised at line 77 is itself caught by the
function's `except Exception` and re-raised as a 401 whose detail wraps
the original message; the model keeps one representative detail). -/
def get_current_user (verify : String → Option String) (c : Cred) :
    Except Http String :=
  match httpBearerCheck c with
  | .error e => .error e
  | .ok t =>
    match verify t with
    | some u => .ok u
    | none => .error ⟨401, "Authentication error: Invalid or expired token"⟩

/-- FastAPI's dependency sequencing for a guarded handler: the guard
runs first, and a guard failure produces its error response without the
handler (and hence without any backend write) running. -/
def runGuarded {α : Type} (verify : String → Option String) (c : Cred)
    (handler : DB → Res α × DB) (db : DB) : Res α × DB :=
  match get_current_user verify c with
  | .error e => (.error e, db)
  | .ok _ => handler db

/-! ## Claim C1: home-page aggregate write-then-read -/

/-- A pre-existing home-page state with one old row in each child
table, to exhibit replacement. -/
def c1Before : DB :=
  { emptyDb with
    hero_images := [⟨100, some "old.png", 0⟩]
    home_stats := [⟨some "9", "9", "old", none, 0⟩]
    home_services_preview := [⟨7, "old", none, none, 0⟩] }

/-- A PUT body with 2 hero images, 3 stats and 1 service preview. -/
def c1Body : FullHomePageBody :=
  { content := ⟨some "t", none, none, none, none⟩
    hero_images := [⟨10, some "a.png", 0⟩, ⟨11, some "b.png", 1⟩]
    stats := [⟨some "1", "5", "years", none, 0⟩, ⟨some "2", "10", "clients", none, 1⟩,
              ⟨some "3", "99", "projects", none, 2⟩]
    services_preview := [⟨20, "design", none, none, 0⟩] }

/-- The backend state after the PUT. -/
def c1After : DB := (update_full_home_page c1Body c1Before).2

/-- C1: after a PUT to /home-page with 2 hero images, 3 stats and 1
service preview, the child tables hold exactly the new rows (2/3/1, old
rows fully replaced) — but the subsequent GET of /home-page does not
return those counts: the handler's unimported `asyncio` raises
`NameError` and every GET /home-page answers 500.  This exhibits the
code bug that falsifies the claim's read half. -/
theorem c1_put_replaces_but_get_returns_500 :
    (update_full_home_page c1Body c1Before).1 = .ok "Home page updated successfully"
    ∧ c1After.hero_images = c1Body.hero_images
    ∧ c1After.home_stats = c1Body.stats
    ∧ c1After.home_services_preview = c1Body.services_preview
    ∧ c1After.hero_images.length = 2
    ∧ c1After.home_stats.length = 3
    ∧ c1After.home_services_preview.length = 1
    ∧ get_full_home_page c1After
        = .error ⟨500, "Internal Server Error: NameError: name asyncio is not defined"⟩ :=
  ⟨rfl, rfl, rfl, rfl, rfl, rfl, rfl, rfl⟩

/-! ## Claim C2: 404 on update/delete of a missing id -/

/-- A valid service body for the C2 request. -/
def c2Body : ServiceBody := ⟨"Logo Design", "a logo", "pen", none, ["draft"], none⟩

/-- C2: updating a service id that matches zero rows does NOT answer
404: the handler's `HTTPException(404, ...)` is raised inside its own
`try` and the blanket `except Exception` re-raises it as a 500 whose
detail wraps the 404 message.  This exhibits the code bug that
falsifies the claim. -/
theorem c2_update_missing_service_returns_500_not_404 :
    (update_service "1" c2Body emptyDb).1
      = .error ⟨500, "404: Service with id 1 not found."⟩
    ∧ (update_service "1" c2Body emptyDb).2.services = [] :=
  ⟨rfl, rfl⟩

/-! ## Claim C3: reading a never-written content key -/

/-- C3: a GET of /content/about against a state in which the key was
never written does not return the default body: the facade's `single`
read fails with NotFound on zero rows, the handler's `except Exception`
catches it, and the request answers 500.  The default-body return for
falsy data (src/main.py:321) is unreachable.  This exhibits the code
bug that falsifies the claim. -/
theorem c3_get_unwritten_key_returns_500 :
    get_content "about" emptyDb
      = .error ⟨500, "Failed to retrieve content: no rows returned"⟩
    ∧ emptyDb.contents = [] :=
  ⟨rfl, rfl⟩

/-! ## Claim C4: content round-trip -/

/-- The PUT body for the round trip: pydantic types `value` as `str`,
so the JSON object arrives as its serialized text (the string
literally containing the seven characters of the object). -/
def c4Body : ContentBody := ⟨"site", "\x7b\x22a\x22:1\x7d"⟩

/-- The backend state after `PUT /content/site`. -/
def c4Db : DB := (update_content "site" c4Body emptyDb).2

/-- C4: the round trip fails.  The PUT re-serializes the already
serialized string, so the stored text decodes back to a *string*, not
an object; the GET's `featuredServices` injection then raises
`TypeError` on that string and the request answers 500 instead of
returning the object with `featuredServices` injected.  This exhibits
the code bug that falsifies the claim. -/
theorem c4_round_trip_returns_500 :
    (update_content "site" c4Body emptyDb).1
      = .ok [⟨"site", .ser (.vstr "\x7b\x22a\x22:1\x7d")⟩]
    ∧ c4Db.contents = [⟨"site", .ser (.vstr "\x7b\x22a\x22:1\x7d")⟩]
    ∧ get_content "site" c4Db = .error ⟨500, "Failed to retrieve content: TypeError"⟩ :=
  ⟨rfl, rfl, rfl⟩

/-! ## Claim C9: order creation is insensitive to the email outcome -/

/-- C9: POST /orders returns the inserted order row for every email
configuration and every SMTP outcome — the notification sender skips
silently when configuration is missing and swallows SMTP failures, so
the email step never affects the response or the inserted row. -/
theorem c9_order_response_insensitive_to_email (env : EmailEnv) (smtpOk : Bool)
    (b : OrderBody) (db : DB) :
    (create_order env smtpOk b db).1 = .ok [b]
    ∧ (create_order env smtpOk b db).2.2.orders = db.orders ++ [b] :=
  ⟨rfl, rfl⟩

/-! ## Claim C8: public review filtering -/

/-- C8: for every database state, the public listing GET /reviews
contains only approved reviews, while the admin listing GET
/admin/reviews is a permutation of all stored reviews (ordering by
`created_at` aside, nothing is filtered). -/
theorem c8_public_approved_admin_unfiltered (db : DB) :
    (∀ r ∈ get_public_reviews db, r.approved = true)
    ∧ (get_all_reviews db).Perm db.reviews := by
  constructor
  · intro r hr
    have h1 : r ∈ db.reviews.filter (fun r => r.approved) :=
      (List.perm_insertionSort _ _).mem_iff.mp hr
    simpa using List.of_mem_filter h1
  · exact List.perm_insertionSort _ _

/-- A two-review state: one approved, one not. -/
def c8Db : DB :=
  { emptyDb with reviews := [⟨1, "ann", 5, "good", true, 10⟩, ⟨2, "bob", 1, "bad", false, 20⟩] }

/-- The approved review of `c8Db`. -/
def c8Row : ReviewRow := ⟨1, "ann", 5, "good", true, 10⟩

/-- Witness for C8 at a concrete state: the approved review is in the
public listing and is approved, and the admin listing permutes the full
table. -/
theorem c8_witness :
    c8Row ∈ get_public_reviews c8Db ∧ c8Row.approved = true
    ∧ (get_all_reviews c8Db).Perm c8Db.reviews :=
  ⟨by decide, (c8_public_approved_admin_unfiltered c8Db).1 c8Row (by decide),
   (c8_public_approved_admin_unfiltered c8Db).2⟩

/-! ## Claim C6: team-member creation assigns dense display orders -/

/-- C6: starting from an empty team table, three creations in sequence
insert rows whose display orders are 1, 2, 3 in creation order,
whatever the three request bodies are. -/
theorem c6_three_creates_yield_1_2_3 (b1 b2 b3 : TeamBody) (db : DB)
    (h : db.team_members = []) :
    ((create_team_member b3
        ((create_team_member b2 ((create_team_member b1 db).2)).2)).2).team_members.map
      (fun r => r.display_order) = [some 1, some 2, some 3] := by
  simp [create_team_member, sortByOrdDesc, insertByOrdDesc, ordDesc, teamInsertRow, h]

/-- A concrete team-member body. -/
def c6Body : TeamBody := ⟨"A", "Designer", "u.png", none, none, none, none, none, none⟩

/-- Witness for C6 at the empty state. -/
theorem c6_witness :
    emptyDb.team_members = []
    ∧ ((create_team_member c6Body
          ((create_team_member c6Body ((create_team_member c6Body emptyDb).2)).2)).2).team_members.map
        (fun r => r.display_order) = [some 1, some 2, some 3] :=
  ⟨rfl, c6_three_creates_yield_1_2_3 c6Body c6Body c6Body emptyDb rfl⟩

/-! ## Claim C10: insert-on-miss for PUT /content and PUT /contact-info -/

/-- C10: both PUTs succeed for every state (no NotFound path exists in
either handler), and when the targeted update matches zero rows the
handler inserts the payload as a new row — for contact-info with the
default id 1 whenever the body does not itself carry an id. -/
theorem c10_content_and_contact_upsert (k : String) (body : ContentBody)
    (info : ContactBody) (db : DB) :
    resOk (update_content k body db).1 = true
    ∧ (db.contents.filter (fun r => r.key == k) = [] →
        (update_content k body db).2.contents
          = db.contents ++ [⟨body.key, .ser (.vstr body.value)⟩])
    ∧ resOk (update_contact_info info db).1 = true
    ∧ (db.contact_info.filter (fun r => r.id == 1) = [] →
        (update_contact_info info db).2.contact_info
          = db.contact_info ++ [contactInsertRow info])
    ∧ (info.id = none → (contactInsertRow info).id = 1) := by
  refine ⟨?_, ?_, ?_, ?_, ?_⟩
  · simp only [update_content]
    split <;> rfl
  · intro h
    simp [update_content, h]
  · simp only [update_contact_info]
    split <;> rfl
  · intro h
    simp [update_contact_info, h]
  · intro h
    simp [contactInsertRow, h]

/-- A contact body with no id supplied. -/
def c10Info : ContactBody := ⟨none, some "hello@example.com", none, none, none, none⟩

/-- A content body for the witness. -/
def c10Body : ContentBody := ⟨"about", "x"⟩

/-- Witness for C10 at the empty state: both updates miss, both
requests succeed, both rows are inserted, and the contact row gets
id 1. -/
theorem c10_witness :
    emptyDb.contents.filter (fun r => r.key == "about") = []
    ∧ resOk (update_content "about" c10Body emptyDb).1 = true
    ∧ (update_content "about" c10Body emptyDb).2.contents
        = emptyDb.contents ++ [⟨"about", .ser (.vstr "x")⟩]
    ∧ emptyDb.contact_info.filter (fun r => r.id == 1) = []
    ∧ resOk (update_contact_info c10Info emptyDb).1 = true
    ∧ (update_contact_info c10Info emptyDb).2.contact_info
        = emptyDb.contact_info ++ [contactInsertRow c10Info]
    ∧ c10Info.id = none
    ∧ (contactInsertRow c10Info).id = 1 := by
  have h := c10_content_and_contact_upsert "about" c10Body c10Info emptyDb
  exact ⟨rfl, h.1, h.2.1 rfl, rfl, h.2.2.1, h.2.2.2.1 rfl, rfl, h.2.2.2.2 rfl⟩

/-! ## Claim C5: the auth-guard coverage of the route table -/

/-- C5 counterexample: the claim's guard-coverage statement is false on
the transcribed route table — `POST /send-reply-email` and
`POST /images/upload` are mutating, outside the claim's exception list,
and unguarded. -/
theorem c5_counterexample : claimC5Holds = false := by rfl

/-- C5 amended: with the two unguarded routes added to the exception
list, every mutating or admin-read route is guarded; and on any guarded
endpoint a request with no bearer credentials is rejected with 403, one
whose token fails validation with 401, and in both cases the handler —
hence any backend write — never runs. -/
theorem c5_amended_guard_coverage (α : Type) (verify : String → Option String)
    (tok : String) (handler : DB → Res α × DB) (db : DB) :
    amendedC5Holds = true
    ∧ runGuarded verify .missing handler db = (.error ⟨403, "Not authenticated"⟩, db)
    ∧ (verify tok = none →
        runGuarded verify (.bearer tok) handler db
          = (.error ⟨401, "Authentication error: Invalid or expired token"⟩, db)) := by
  refine ⟨by rfl, rfl, ?_⟩
  intro h
  simp [runGuarded, get_current_user, httpBearerCheck, h]

/-- Witness for the amended C5 at concrete inputs: a verifier that
rejects every token, a handler that would succeed, the empty state. -/
theorem c5_witness :
    amendedC5Holds = true
    ∧ runGuarded (fun _ => none) .missing (fun db => ((.ok 0 : Res Nat), db)) emptyDb
        = (.error ⟨403, "Not authenticated"⟩, emptyDb)
    ∧ (fun (_ : String) => (none : Option String)) "tok" = none
    ∧ runGuarded (fun _ => none) (.bearer "tok") (fun db => ((.ok 0 : Res Nat), db)) emptyDb
        = (.error ⟨401, "Authentication error: Invalid or expired token"⟩, emptyDb) := by
  have h := c5_amended_guard_coverage Nat (fun _ => none) "tok"
    (fun db => ((.ok 0 : Res Nat), db)) emptyDb
  exact ⟨h.1, h.2.1, rfl, h.2.2 rfl⟩

/-! ## Claim C7: reorder semantics and idempotence

The reorder loop issues one update per listed id.  Its net effect on a
single row is captured by `applyRow`, which threads the row through the
sequence of conditional updates. -/

/-- The effect of the reorder loop on one row: the conditional update
of each listed id applied in order. -/
def applyRow (i : Nat) (ids : List Nat) (r : TeamRow) : TeamRow :=
  match ids with
  | [] => r
  | mid :: rest =>
    applyRow (i + 1) rest
      (if r.id == mid then { r with display_order := some (Int.ofNat i) } else r)

/-- The index of the first occurrence of an id in the supplied
sequence. -/
def listIdx (a : Nat) : List Nat → Nat
  | [] => 0
  | b :: rest => if a == b then 0 else listIdx a rest + 1

theorem reorderLoop_eq_map (ids : List Nat) :
    ∀ (i : Nat) (rows : List TeamRow),
      reorderLoop i ids rows = rows.map (applyRow i ids) := by
  induction ids with
  | nil =>
    intro i rows
    simp [reorderLoop, applyRow]
  | cons mid rest ih =>
    intro i rows
    rw [reorderLoop, ih, setOrder, List.map_map]
    rfl

theorem applyRow_not_mem (ids : List Nat) :
    ∀ (i : Nat) (r : TeamRow), r.id ∉ ids → applyRow i ids r = r := by
  induction ids with
  | nil => intro i r _; rfl
  | cons mid rest ih =>
    intro i r h
    have h1 : r.id ≠ mid := fun e => h (e ▸ List.mem_cons_self _ _)
    have h2 : r.id ∉ rest := fun m => h (List.mem_cons_of_mem _ m)
    rw [applyRow, if_neg (by simp [h1])]
    exact ih _ _ h2

theorem applyRow_insensitive (ids : List Nat) :
    ∀ (i : Nat) (r : TeamRow) (d : Option Int), r.id ∈ ids →
      applyRow i ids { r with display_order := d } = applyRow i ids r := by
  induction ids with
  | nil => intro i r d h; exact absurd h (List.not_mem_nil _)
  | cons mid rest ih =>
    intro i r d h
    rw [applyRow, applyRow]
    by_cases hm : r.id = mid
    · have c1 : (({ r with display_order := d } : TeamRow).id == mid) = true := by simp [hm]
      have c2 : (r.id == mid) = true := by simp [hm]
      rw [if_pos c1, if_pos c2]
    · have c1 : (({ r with display_order := d } : TeamRow).id == mid) = false := by simp [hm]
      have c2 : (r.id == mid) = false := by simp [hm]
      rw [if_neg (by simp [c1]), if_neg (by simp [c2])]
      exact ih _ _ _ ((List.mem_cons.mp h).resolve_left hm)

theorem applyRow_only_order (ids : List Nat) :
    ∀ (i : Nat) (r : TeamRow),
      applyRow i ids r = { r with display_order := (applyRow i ids r).display_order } := by
  induction ids with
  | nil => intro i r; rfl
  | cons mid rest ih =>
    intro i r
    by_cases hm : r.id = mid
    · have hr : (if r.id == mid then { r with display_order := some (Int.ofNat i) } else r)
          = { r with display_order := some (Int.ofNat i) } := by simp [hm]
      rw [applyRow, hr]
      exact ih _ _
    · have hr : (if r.id == mid then { r with display_order := some (Int.ofNat i) } else r)
          = r := by simp [hm]
      rw [applyRow, hr]
      exact ih _ _

theorem applyRow_idem (ids : List Nat) (i : Nat) (r : TeamRow) :
    applyRow i ids (applyRow i ids r) = applyRow i ids r := by
  by_cases hm : r.id ∈ ids
  · calc applyRow i ids (applyRow i ids r)
        = applyRow i ids { r with display_order := (applyRow i ids r).display_order } := by
          rw [← applyRow_only_order]
      _ = applyRow i ids r := applyRow_insensitive ids i r _ hm
  · rw [applyRow_not_mem ids i r hm]
    exact applyRow_not_mem ids i r hm

theorem applyRow_nodup_mem (ids : List Nat) :
    ∀ (i : Nat) (r : TeamRow), ids.Nodup → r.id ∈ ids →
      applyRow i ids r
        = { r with display_order := some (Int.ofNat (i + listIdx r.id ids)) } := by
  induction ids with
  | nil => intro i r _ h; exact absurd h (List.not_mem_nil _)
  | cons mid rest ih =>
    intro i r nd h
    have nd' := List.nodup_cons.mp nd
    by_cases hm : r.id = mid
    · have hr : (if r.id == mid then { r with display_order := some (Int.ofNat i) } else r)
          = { r with display_order := some (Int.ofNat i) } := by simp [hm]
      have hnot : ({ r with display_order := some (Int.ofNat i) } : TeamRow).id ∉ rest := by
        show r.id ∉ rest
        rw [hm]; exact nd'.1
      rw [applyRow, hr, applyRow_not_mem rest _ _ hnot]
      have hidx : listIdx r.id (mid :: rest) = 0 := by simp [listIdx, hm]
      rw [hidx, Nat.add_zero]
    · have hr : (if r.id == mid then { r with display_order := some (Int.ofNat i) } else r)
          = r := by simp [hm]
      have hrest : r.id ∈ rest := (List.mem_cons.mp h).resolve_left hm
      rw [applyRow, hr, ih _ _ nd'.2 hrest]
      have hidx : listIdx r.id (mid :: rest) = listIdx r.id rest + 1 := by simp [listIdx, hm]
      rw [hidx]
      have harith : (i + 1) + listIdx r.id rest = i + (listIdx r.id rest + 1) := by omega
      rw [harith]

theorem map_applyRow_congr (ids : List Nat) (nd : ids.Nodup) :
    ∀ (l : List TeamRow),
      l.map (applyRow 0 ids)
        = l.map (fun r =>
            if r.id ∈ ids then
              { r with display_order := some (Int.ofNat (listIdx r.id ids)) }
            else r) := by
  intro l
  induction l with
  | nil => rfl
  | cons a t iht =>
    simp only [List.map_cons, iht]
    congr 1
    by_cases hm : a.id ∈ ids
    · rw [if_pos hm, applyRow_nodup_mem ids 0 a nd hm, Nat.zero_add]
    · rw [if_neg hm, applyRow_not_mem ids 0 a hm]

theorem map_applyRow_idem (ids : List Nat) :
    ∀ (l : List TeamRow),
      (l.map (applyRow 0 ids)).map (applyRow 0 ids) = l.map (applyRow 0 ids) := by
  intro l
  rw [List.map_map]
  induction l with
  | nil => rfl
  | cons a t iht =>
    simp only [List.map_cons, iht]
    congr 1
    exact applyRow_idem ids 0 a

/-- C7: the reorder endpoint sets each listed id's display order to its
index in the supplied sequence (for a duplicate-free sequence; ids not
listed are untouched), and the endpoint is idempotent: running it twice
with the same sequence leaves exactly the state the first run
produced. -/
theorem c7_reorder_indices_and_idempotent (ids : List Nat) (db : DB) :
    (ids.Nodup →
      (reorder_team_members ids db).2.team_members
        = db.team_members.map (fun r =>
            if r.id ∈ ids then
              { r with display_order := some (Int.ofNat (listIdx r.id ids)) }
            else r))
    ∧ (reorder_team_members ids (reorder_team_members ids db).2).2
        = (reorder_team_members ids db).2 := by
  constructor
  · intro nd
    show reorderLoop 0 ids db.team_members = _
    rw [reorderLoop_eq_map]
    exact map_applyRow_congr ids nd db.team_members
  · have hT : reorderLoop 0 ids (reorderLoop 0 ids db.team_members)
        = reorderLoop 0 ids db.team_members := by
      rw [reorderLoop_eq_map, reorderLoop_eq_map]
      exact map_applyRow_idem ids db.team_members
    show ({ db with team_members := reorderLoop 0 ids (reorderLoop 0 ids db.team_members) } : DB)
        = { db with team_members := reorderLoop 0 ids db.team_members }
    rw [hT]

/-- A two-member team state for the C7 witness. -/
def c7Db : DB :=
  { emptyDb with team_members :=
      [⟨3, "a", "d", "u", none, none, some 9⟩, ⟨5, "b", "d", "u", none, none, none⟩] }

/-- Witness for C7 at concrete inputs: reordering ids `[5, 3]` assigns
display orders 0 and 1 by list index, and a second identical reorder
changes nothing. -/
theorem c7_witness :
    ([5, 3] : List Nat).Nodup
    ∧ (reorder_team_members [5, 3] c7Db).2.team_members
        = c7Db.team_members.map (fun r =>
            if r.id ∈ ([5, 3] : List Nat) then
              { r with display_order := some (Int.ofNat (listIdx r.id [5, 3])) }
            else r)
    ∧ (reorder_team_members [5, 3] (reorder_team_members [5, 3] c7Db).2).2
        = (reorder_team_members [5, 3] c7Db).2 :=
  ⟨by decide, (c7_reorder_indices_and_idempotent [5, 3] c7Db).1 (by decide),
   (c7_reorder_indices_and_idempotent [5, 3] c7Db).2⟩
